import Mathlib

/-!
Shallow embedding of the tidb-bench load-generation harness
(src/src/lib.rs, src/src/bin/insert.rs, src/src/bin/select.rs).

Two layers, both translated from the source:
* an operation layer (`SqlOp`): the sequence of database operations each
  phase (connect / setup / bench iteration / teardown) issues, with the
  control flow of the `?`-propagation modelled by `runOps`;
* a statement-text layer: the exact SQL strings built by the `format!`
  calls, used for the identifier-quoting claims.

Machine integers are modelled as `Nat` with an explicit `% 2 ^ 32` where
the source multiplies two `u32` values.  Wall-clock durations and the
network are not modelled; a database failure oracle (`fail : SqlOp → Bool`)
stands for the fallible `await?` points.
-/

namespace TidbBench

/-- Transaction modes.  `lib.rs` lines 7–15 defines `TxMode`; both binaries
duplicate the identical enum (insert.rs 9–17, select.rs 13–21). -/
inductive TxMode where
  | autoCommit
  | optimistic
  | pessimistic
deriving DecidableEq

/-- Shape of a SELECT issued by the harness: a LIMIT and an optional OFFSET.
The source only ever builds `LIMIT ?` queries (select.rs 122, 138, 158);
`offset` is carried so that the spec's offset-range condition is statable. -/
structure SelectQuery where
  limit : Nat
  offset : Option Nat
deriving DecidableEq

/-- One database operation issued by the harness, at the granularity the
claims need.  `seed` carries the bound parameter of the seeding statement
(select.rs 103–106); `insertBatch` carries the synthetic row counters of
the batch (insert.rs 113–120). -/
inductive SqlOp where
  | dropTable
  | createTable
  | seed (insertCount : Nat)
  | setSession (mode : String)
  | beginTx
  | commitTx
  | insertBatch (counters : List Nat)
  | select (q : SelectQuery)
deriving DecidableEq

/-- Status of an iteration report (rlt `Status`); the source only ever
constructs `Status::success(0)` (insert.rs 201, select.rs 181). -/
inductive Status where
  | success (code : Nat)
  | error (code : Nat)
deriving DecidableEq

/-- rlt `IterReport` as produced by the benches.  The `duration` field of
the source is wall-clock time and is not modelled. -/
structure IterReport where
  status : Status
  bytes : Nat
  items : Nat
deriving DecidableEq

/-- The schema-mutating operations of setup: drop, create, and the bulk
row seeding of the SELECT workload. -/
def isDDL : SqlOp → Bool
  | .dropTable => true
  | .createTable => true
  | .seed _ => true
  | _ => false

/-- Session-level transaction-mode directives (`SET SESSION tidb_txn_mode`). -/
def isDirective : SqlOp → Bool
  | .setSession _ => true
  | _ => false

def isSelectOp : SqlOp → Bool
  | .select _ => true
  | _ => false

def isDropOp : SqlOp → Bool
  | .dropTable => true
  | _ => false

/-- insert.rs 62–75 (`state`): every worker connects and starts its
`insert_counter` at 0; the `_worker_id` argument is ignored by the source. -/
def initCounter (_worker_id : Nat) : Nat := 0

/-- insert.rs 113–119: the synthetic counters of one batch are
`insert_counter + i` for `i` in `0..batch_size`. -/
def batchCounters (counter B : Nat) : List Nat :=
  (List.range B).map (fun i => counter + i)

/-- Sequential execution of a list of database operations where each call
site is suffixed by `?`: the first operation the database fails aborts the
function with that error; otherwise all operations run. -/
def runOps (fail : SqlOp → Bool) : List SqlOp → Except SqlOp Unit
  | [] => .ok ()
  | op :: rest => if fail op then .error op else runOps fail rest

namespace InsertBench

/-- insert.rs 62–75 (`state`): connecting issues no SQL statement; in
particular no transaction-mode directive is sent at connect time
(the library helper `DbOpts::init_tx_mode` is never called). -/
def connectOps (_tx_mode : TxMode) : List SqlOp := []

/-- insert.rs 77–99 (`setup`): drop-if-exists then create, issued
unconditionally; the `_worker_id` argument is ignored by the source. -/
def setupOps (_worker_id : Nat) : List SqlOp :=
  [.dropTable, .createTable]

/-- insert.rs 106–194: the operations issued inside the timed region of one
bench iteration, per transaction mode.  The pessimistic arm sets the session
mode, runs the transaction, then resets the session mode to optimistic
(insert.rs 158–193); all of this is between `Instant::now()` and
`t.elapsed()`. -/
def benchOps (tx_mode : TxMode) (counter B : Nat) : List SqlOp :=
  match tx_mode with
  | .autoCommit =>
      [.insertBatch (batchCounters counter B)]
  | .optimistic =>
      [.beginTx, .insertBatch (batchCounters counter B), .commitTx]
  | .pessimistic =>
      [.setSession "pessimistic", .beginTx,
       .insertBatch (batchCounters counter B), .commitTx,
       .setSession "optimistic"]

/-- insert.rs 101–205 (`bench`): run the iteration's operations; any failed
operation is propagated by `?` before `state.insert_counter += batch_size`
(line 196) executes, so on error the counter is unchanged.  On success the
report is `{status: success(0), bytes: batch_size * (50 + 4),
items: batch_size}` (lines 199–204).  Returns the final counter together
with the result. -/
def benchMut (tx_mode : TxMode) (B counter : Nat) (fail : SqlOp → Bool) :
    Nat × Except SqlOp IterReport :=
  match runOps fail (benchOps tx_mode counter B) with
  | .error e => (counter, .error e)
  | .ok _ =>
      (counter + B,
       .ok { status := .success 0, bytes := B * (50 + 4), items := B })

/-- insert.rs 207–214 (`teardown`): drop-if-exists, issued unconditionally
by every worker (no worker-index argument is even available). -/
def teardownOps (_worker_id : Nat) : List SqlOp :=
  [.dropTable]

end InsertBench

/-- select.rs 11: size of the BIGINT column used in byte accounting. -/
def BIGINT_SIZE : Nat := 8

/-- select.rs 10: seed twice as many rows as one iteration selects. -/
def TEST_DATA_MULTIPLIER : Nat := 2

/-- One row of the benchmark table as fetched by the SELECT workload
(`Vec<(i64, String)>`, select.rs 120, 136, 157). -/
structure Row where
  id : Int
  data : String
deriving DecidableEq

namespace SelectBench

/-- select.rs 90: `insert_count = select_count * TEST_DATA_MULTIPLIER`,
a `u32` multiplication, hence the explicit wrap at `2 ^ 32`. -/
def insert_count (select_count : Nat) : Nat :=
  (select_count * TEST_DATA_MULTIPLIER) % 2 ^ 32

/-- select.rs 61–71 (`state`): connecting issues no SQL statement. -/
def connectOps (_tx_mode : TxMode) : List SqlOp := []

/-- select.rs 73–111 (`setup`): drop, create, then the seeding
INSERT..SELECT with bound parameter `insert_count`; issued unconditionally,
the `_worker_id` argument is ignored by the source. -/
def setupOps (select_count : Nat) (_worker_id : Nat) : List SqlOp :=
  [.dropTable, .createTable, .seed (insert_count select_count)]

/-- select.rs 122/138/158: the one query of an iteration is
`SELECT id, data FROM {table} LIMIT ?` with parameter `select_count`;
no OFFSET clause is ever built. -/
def benchQuery (select_count : Nat) : SelectQuery :=
  { limit := select_count, offset := none }

/-- select.rs 113–175: operations inside the timed region of one
iteration, per transaction mode (same structure as the INSERT bench). -/
def benchOps (tx_mode : TxMode) (select_count : Nat) : List SqlOp :=
  match tx_mode with
  | .autoCommit =>
      [.select (benchQuery select_count)]
  | .optimistic =>
      [.beginTx, .select (benchQuery select_count), .commitTx]
  | .pessimistic =>
      [.setSession "pessimistic", .beginTx,
       .select (benchQuery select_count), .commitTx,
       .setSession "optimistic"]

end SelectBench

/-- Result set of `SELECT id, data FROM t LIMIT l [OFFSET o]` over the
table contents in insertion order. -/
def selectRows (table : List Row) (q : SelectQuery) : List Row :=
  match q.offset with
  | none => table.take q.limit
  | some o => (table.drop o).take q.limit

/-- select.rs 128–129: per-row byte estimate `BIGINT_SIZE + data.len()`. -/
def rowBytes (r : Row) : Nat := BIGINT_SIZE + r.data.length

namespace SelectBench

/-- select.rs 113–185 (`bench`): run the iteration's operations over a
table snapshot; on success the report is `{status: success(0),
bytes: Σ rowBytes over the fetched rows, items: select_count}`
(lines 179–184) — `items` is the configured count, not the number of
rows actually fetched. -/
def benchRun (tx_mode : TxMode) (select_count : Nat) (table : List Row)
    (fail : SqlOp → Bool) : Except SqlOp IterReport :=
  match runOps fail (benchOps tx_mode select_count) with
  | .error e => .error e
  | .ok _ =>
      .ok { status := .success 0,
            bytes := ((selectRows table (benchQuery select_count)).map rowBytes).sum,
            items := select_count }

/-- select.rs 187–192 (`teardown`): drop-if-exists, issued unconditionally
by every worker. -/
def teardownOps (_worker_id : Nat) : List SqlOp :=
  [.dropTable]

end SelectBench

/-- Semantics of the seeding statement's row generator (select.rs 93–103):
four cross-joined ten-row derived tables drive `@row := @row + 1`, so `n`
ranges over `1..10000`; the WHERE clause keeps `n <= insert_count`. -/
def generatorRows : List Nat :=
  (List.range (10 * 10 * 10 * 10)).map (fun i => i + 1)

/-- The rows the seeding statement inserts for a given `select_count`:
one row `(n, CONCAT("test_data_", n))` per generated `n ≤ insert_count`. -/
def seedTable (select_count : Nat) : List Row :=
  (generatorRows.filter (fun n => decide (n ≤ SelectBench.insert_count select_count))).map
    (fun (n : Nat) => { id := (n : Int), data := "test_data_" ++ Nat.repr n })

/-- Number of rows the seeding statement inserts. -/
def seededRows (select_count : Nat) : Nat := (seedTable select_count).length

namespace DbOpts

/-- lib.rs 61–74 (`init_tx_mode`): the library's connect-time session
directive helper — documented "once per connection" — which neither binary
ever calls. -/
def init_tx_mode : TxMode → List SqlOp
  | .autoCommit => []
  | .optimistic => [.setSession "optimistic"]
  | .pessimistic => [.setSession "pessimistic"]

/-- lib.rs 76–78 (`quoted_table`): wrap the table name in backticks.
Also never called by either binary. -/
def quoted_table (table : String) : String :=
  "\x60" ++ table ++ "\x60"

end DbOpts

/-! ### Statement-text layer

The exact strings the binaries build with `format!`, with the configured
table name interpolated raw (`self.table`).  Apostrophes and backticks in
SQL text are written with `\x27` and `\x60` escapes. -/

/-- insert.rs 81, select.rs 75, insert.rs 211, select.rs 189. -/
def dropTableStmt (table : String) : String :=
  "DROP TABLE IF EXISTS " ++ table

/-- insert.rs 87–95. -/
def insertCreateStmt (table : String) : String :=
  "CREATE TABLE " ++ table ++ " (\n" ++
  "                    id BIGINT PRIMARY KEY AUTO_INCREMENT,\n" ++
  "                    data VARCHAR(255),\n" ++
  "                    value INT,\n" ++
  "                    created_at TIMESTAMP DEFAULT CURRENT_TIMESTAMP\n" ++
  "                )"

/-- select.rs 79–86. -/
def selectCreateStmt (table : String) : String :=
  "CREATE TABLE " ++ table ++ " (\n" ++
  "                id BIGINT PRIMARY KEY AUTO_INCREMENT,\n" ++
  "                data VARCHAR(255),\n" ++
  "                created_at TIMESTAMP DEFAULT CURRENT_TIMESTAMP\n" ++
  "            )"

/-- select.rs 92–105: the seeding statement text; `insert_count` is passed
as a bound parameter, so only the table name is interpolated. -/
def seedStmt (table : String) : String :=
  "INSERT INTO " ++ table ++ " (data) \n" ++
  "                 SELECT CONCAT(\x27test_data_\x27, n) \n" ++
  "                 FROM (\n" ++
  "                   SELECT @row := @row + 1 as n \n" ++
  "                   FROM (SELECT 0 UNION ALL SELECT 1 UNION ALL SELECT 2 UNION ALL SELECT 3 UNION ALL SELECT 4 UNION ALL SELECT 5 UNION ALL SELECT 6 UNION ALL SELECT 7 UNION ALL SELECT 8 UNION ALL SELECT 9) t1,\n" ++
  "                        (SELECT 0 UNION ALL SELECT 1 UNION ALL SELECT 2 UNION ALL SELECT 3 UNION ALL SELECT 4 UNION ALL SELECT 5 UNION ALL SELECT 6 UNION ALL SELECT 7 UNION ALL SELECT 8 UNION ALL SELECT 9) t2,\n" ++
  "                        (SELECT 0 UNION ALL SELECT 1 UNION ALL SELECT 2 UNION ALL SELECT 3 UNION ALL SELECT 4 UNION ALL SELECT 5 UNION ALL SELECT 6 UNION ALL SELECT 7 UNION ALL SELECT 8 UNION ALL SELECT 9) t3,\n" ++
  "                        (SELECT 0 UNION ALL SELECT 1 UNION ALL SELECT 2 UNION ALL SELECT 3 UNION ALL SELECT 4 UNION ALL SELECT 5 UNION ALL SELECT 6 UNION ALL SELECT 7 UNION ALL SELECT 8 UNION ALL SELECT 9) t4,\n" ++
  "                        (SELECT @row := 0) r\n" ++
  "                 ) nums \n" ++
  "                 WHERE n <= ?"

/-- insert.rs 113–120: one rendered value tuple
`('bench_data_{counter}', {counter % 1000})`. -/
def valueTuple (counter : Nat) : String :=
  "(\x27bench_data_" ++ Nat.repr counter ++ "\x27, " ++
    Nat.repr (counter % 1000) ++ ")"

/-- `Vec::join(", ")` on the rendered tuples (insert.rs 125). -/
def joinComma : List String → String
  | [] => ""
  | [s] => s
  | s :: rest => s ++ ", " ++ joinComma rest

/-- insert.rs 122–126: the multi-row INSERT statement of one iteration. -/
def insertStmt (table : String) (counter B : Nat) : String :=
  "INSERT INTO " ++ table ++ " (data, value) VALUES " ++
    joinComma ((batchCounters counter B).map valueTuple)

/-- select.rs 122/138/158: the per-iteration query text next to its bound
`select_count` parameter. -/
def selectStmt (table : String) : String :=
  "SELECT id, data FROM " ++ table ++ " LIMIT ?"

/-- Every statement the INSERT binary constructs that interpolates the
table name: setup drop, create, one bench INSERT, teardown drop. -/
def insertAllStmts (table : String) (counter B : Nat) : List String :=
  [dropTableStmt table, insertCreateStmt table,
   insertStmt table counter B, dropTableStmt table]

/-- Every statement the SELECT binary constructs that interpolates the
table name: setup drop, create, seeding, one bench SELECT, teardown drop. -/
def selectAllStmts (table : String) : List String :=
  [dropTableStmt table, selectCreateStmt table, seedStmt table,
   selectStmt table, dropTableStmt table]

/-- The backtick identifier-quoting character. -/
def backtickChar : Char := Char.ofNat 96

/-- Whether a statement text contains a backtick anywhere. -/
def hasBacktick (s : String) : Bool :=
  s.data.any (fun c => decide (c = backtickChar))

/-- A failure oracle under which every statement succeeds except the
transaction commit (a write conflict surfacing at `tx.commit().await?`). -/
def failCommit : SqlOp → Bool
  | .commitTx => true
  | _ => false

/-- The concrete report of a successful batch-100 INSERT iteration:
status success(0), bytes 100 * (50 + 4) = 5400, items 100. -/
def repAuto100 : IterReport :=
  { status := .success 0, bytes := 5400, items := 100 }

/-- Shape of any successful INSERT iteration: the report fields and the
counter advance, read off `benchMut`. -/
theorem benchMut_ok_shape (tx_mode : TxMode) (B counter : Nat)
    (fail : SqlOp → Bool) (counter' : Nat) (r : IterReport)
    (h : InsertBench.benchMut tx_mode B counter fail = (counter', Except.ok r)) :
    r.status = Status.success 0 ∧ r.items = B ∧ r.bytes = B * (50 + 4) ∧
    counter' = counter + B := by
  unfold InsertBench.benchMut at h
  cases hro : runOps fail (InsertBench.benchOps tx_mode counter B) with
  | error e => rw [hro] at h; simp at h
  | ok u =>
      rw [hro] at h
      simp only [Prod.mk.injEq, Except.ok.injEq] at h
      obtain ⟨h1, h2⟩ := h
      subst h2
      exact ⟨rfl, rfl, rfl, h1.symm⟩

/-- Shape of any successful SELECT iteration: the report fields read off
`benchRun`; `items` is the configured `select_count`. -/
theorem benchRun_ok_shape (tx_mode : TxMode) (sc : Nat) (table : List Row)
    (fail : SqlOp → Bool) (r : IterReport)
    (h : SelectBench.benchRun tx_mode sc table fail = Except.ok r) :
    r.status = Status.success 0 ∧ r.items = sc ∧
    r.bytes = ((selectRows table (SelectBench.benchQuery sc)).map rowBytes).sum := by
  unfold SelectBench.benchRun at h
  cases hro : runOps fail (SelectBench.benchOps tx_mode sc) with
  | error e => rw [hro] at h; simp at h
  | ok u =>
      rw [hro] at h
      simp only [Except.ok.injEq] at h
      subst h
      exact ⟨rfl, rfl, rfl⟩

/-! ### Claims -/

/-- C1: the claim says only the worker with index 0 issues the schema-setup
DDL and non-zero workers issue none.  Evaluating the code at the failing
input: `setup` ignores the worker index, so a worker with index 1 issues
exactly the same DDL as worker 0 — two DDL statements (drop, create) in the
INSERT workload and three (drop, create, seed) in the SELECT workload. -/
theorem setup_ddl_not_gated :
    InsertBench.setupOps 1 = InsertBench.setupOps 0 ∧
    (InsertBench.setupOps 1).countP isDDL = 2 ∧
    SelectBench.setupOps 1000 1 = SelectBench.setupOps 1000 0 ∧
    (SelectBench.setupOps 1000 1).countP isDDL = 3 := by
  decide

/-- C2: the claim says distinct workers' batch counters never overlap
thanks to a `workerSequence * batchSize` base offset.  Evaluating the code
at the failing input: every worker's `insert_counter` starts at 0
(`state` ignores the worker id), so workers 0 and 1 generate the identical
counter list `0..99` for their first batch of size 100 — a full overlap. -/
theorem worker_counters_collide :
    initCounter 1 = initCounter 0 ∧
    batchCounters (initCounter 0) 100 = batchCounters (initCounter 1) 100 ∧
    (batchCounters (initCounter 1) 100).length = 100 ∧
    0 ∈ batchCounters (initCounter 0) 100 ∧
    0 ∈ batchCounters (initCounter 1) 100 := by
  decide

/-- C3: the claim says the session transaction-mode directive is issued
exactly once at connect time and never inside a timed iteration, with
identical per-iteration paths for Optimistic and Pessimistic.  Evaluating
the code: connecting issues no directive at all; each timed pessimistic
iteration issues two directives (set pessimistic, reset to optimistic)
while an optimistic iteration issues zero, so the two per-iteration paths
differ; the library helper `DbOpts::init_tx_mode` that would issue the
directive once per connection is never called by the binaries. -/
theorem tx_directive_inside_timed_iteration :
    InsertBench.connectOps .pessimistic = [] ∧
    SelectBench.connectOps .pessimistic = [] ∧
    (InsertBench.benchOps .pessimistic 0 100).countP isDirective = 2 ∧
    (SelectBench.benchOps .pessimistic 1000).countP isDirective = 2 ∧
    (InsertBench.benchOps .optimistic 0 100).countP isDirective = 0 ∧
    InsertBench.benchOps .optimistic 0 100 ≠ InsertBench.benchOps .pessimistic 0 100 ∧
    DbOpts.init_tx_mode .pessimistic = [.setSession "pessimistic"] := by
  decide

/-- C4 counterexample: with a failing commit under optimistic mode, the
iteration does NOT return a failed `IterReport` with non-zero status — the
`?` on `tx.commit()` propagates the error out of `bench`. -/
theorem commit_failure_returns_error :
    (InsertBench.benchMut .optimistic 100 0 failCommit).2
      = Except.error SqlOp.commitTx ∧
    (InsertBench.benchMut .optimistic 100 0 failCommit).2.isOk = false := by
  constructor <;> rfl

/-- C4 amended: when the commit of an iteration's explicit transaction
fails, the bench function propagates the error to the framework
(`Result::Err`) instead of returning a failed report; the iteration code
itself never produces a report with non-success status — every report it
does return has status `success(0)`. -/
theorem commit_failure_propagates (B counter sc : Nat) (table : List Row)
    (fail : SqlOp → Bool)
    (hc : fail SqlOp.commitTx = true)
    (hb : fail SqlOp.beginTx = false)
    (hi : fail (SqlOp.insertBatch (batchCounters counter B)) = false)
    (hq : fail (SqlOp.select (SelectBench.benchQuery sc)) = false) :
    (InsertBench.benchMut .optimistic B counter fail).2
      = Except.error SqlOp.commitTx ∧
    SelectBench.benchRun .optimistic sc table fail
      = Except.error SqlOp.commitTx ∧
    (∀ tm counter' r,
      InsertBench.benchMut tm B counter fail = (counter', Except.ok r) →
        r.status = Status.success 0) ∧
    (∀ tm r, SelectBench.benchRun tm sc table fail = Except.ok r →
        r.status = Status.success 0) := by
  refine ⟨?_, ?_, ?_, ?_⟩
  · simp [InsertBench.benchMut, InsertBench.benchOps, runOps, hb, hi, hc]
  · simp [SelectBench.benchRun, SelectBench.benchOps, runOps, hb, hq, hc]
  · intro tm counter' r h
    exact (benchMut_ok_shape tm B counter fail counter' r h).1
  · intro tm r h
    exact (benchRun_ok_shape tm sc table fail r h).1

/-- C4 witness: the amended theorem applied at batch size 100, counter 0,
select count 1000, empty table snapshot, with the commit-only failure
oracle. -/
theorem commit_failure_propagates_witness :
    failCommit SqlOp.commitTx = true ∧
    (InsertBench.benchMut .optimistic 100 0 failCommit).2
      = Except.error SqlOp.commitTx ∧
    SelectBench.benchRun .optimistic 1000 [] failCommit
      = Except.error SqlOp.commitTx := by
  have h := commit_failure_propagates 100 0 1000 [] failCommit rfl rfl rfl rfl
  exact ⟨rfl, h.1, h.2.1⟩

/-- C8: for every batch size, transaction mode, starting counter and
failure oracle, a successful INSERT iteration reports status success(0),
items equal to the batch size, and bytes equal to batch size times 54
(the fixed 50 + 4 per-row estimate). -/
theorem insert_report_success_fields (tx_mode : TxMode) (B counter : Nat)
    (fail : SqlOp → Bool) (counter' : Nat) (r : IterReport)
    (h : InsertBench.benchMut tx_mode B counter fail = (counter', Except.ok r)) :
    r.status = Status.success 0 ∧ r.items = B ∧ r.bytes = B * 54 := by
  obtain ⟨h1, h2, h3, _⟩ := benchMut_ok_shape tx_mode B counter fail counter' r h
  refine ⟨h1, h2, ?_⟩
  rw [h3]

/-- C8 witness: the spec scenario batch size 100 in auto-commit mode with
no database failures — items 100, bytes 100 * 54 = 5400. -/
theorem insert_report_success_fields_witness :
    InsertBench.benchMut .autoCommit 100 0 (fun _ => false)
      = (100, Except.ok repAuto100) ∧
    (repAuto100.status = Status.success 0 ∧ repAuto100.items = 100 ∧
      repAuto100.bytes = 100 * 54) := by
  have he : InsertBench.benchMut .autoCommit 100 0 (fun _ => false)
      = (100, Except.ok repAuto100) := rfl
  exact ⟨he,
    insert_report_success_fields .autoCommit 100 0 (fun _ => false) 100 repAuto100 he⟩

/-- C9: for every mode, batch size, counter and failure oracle, a
successful iteration advances the worker's counter by exactly the batch
size, and a failed iteration leaves it unchanged (the only write to
`insert_counter` is after every fallible statement). -/
theorem insert_counter_advance (tx_mode : TxMode) (B counter : Nat)
    (fail : SqlOp → Bool) :
    ((InsertBench.benchMut tx_mode B counter fail).2.isOk = true →
      (InsertBench.benchMut tx_mode B counter fail).1 = counter + B) ∧
    ((InsertBench.benchMut tx_mode B counter fail).2.isOk = false →
      (InsertBench.benchMut tx_mode B counter fail).1 = counter) := by
  unfold InsertBench.benchMut
  cases runOps fail (InsertBench.benchOps tx_mode counter B) <;>
    simp [Except.isOk, Except.toBool]

/-- C9 witness: a successful auto-commit iteration advances 0 to 0 + 100;
an optimistic iteration whose commit fails leaves the counter at 0. -/
theorem insert_counter_advance_witness :
    (InsertBench.benchMut .autoCommit 100 0 (fun _ => false)).1 = 0 + 100 ∧
    (InsertBench.benchMut .optimistic 100 0 failCommit).1 = 0 :=
  ⟨(insert_counter_advance .autoCommit 100 0 (fun _ => false)).1 rfl,
   (insert_counter_advance .optimistic 100 0 failCommit).2 rfl⟩

/-- C5: every iteration of the SELECT workload issues exactly one SELECT,
that SELECT has LIMIT `select_count` and no OFFSET clause (so any
offset-range condition holds vacuously), and whenever the table holds at
least `select_count` rows the query returns exactly `select_count` rows. -/
theorem select_iteration_shape (tx_mode : TxMode) (sc : Nat)
    (table : List Row) :
    (SelectBench.benchOps tx_mode sc).countP isSelectOp = 1 ∧
    (∀ q, SqlOp.select q ∈ SelectBench.benchOps tx_mode sc →
      q.limit = sc ∧ q.offset = none) ∧
    (∀ q o, SqlOp.select q ∈ SelectBench.benchOps tx_mode sc →
      q.offset = some o → o ≤ seededRows sc - sc) ∧
    (sc ≤ table.length →
      (selectRows table (SelectBench.benchQuery sc)).length = sc) := by
  refine ⟨?_, ?_, ?_, ?_⟩
  · cases tx_mode <;>
      simp [SelectBench.benchOps, List.countP_cons, isSelectOp]
  · intro q hq
    have hqe : q = SelectBench.benchQuery sc := by
      cases tx_mode <;> simp_all [SelectBench.benchOps]
    subst hqe
    exact ⟨rfl, rfl⟩
  · intro q o hq ho
    have hqe : q = SelectBench.benchQuery sc := by
      cases tx_mode <;> simp_all [SelectBench.benchOps]
    rw [hqe] at ho
    simp [SelectBench.benchQuery] at ho
  · intro hsc
    simp only [selectRows, SelectBench.benchQuery, List.length_take]
    omega

/-- C5 witness: the spec scenario select_count = 1000 against a 2000-row
table snapshot — the query returns exactly 1000 rows. -/
theorem select_iteration_shape_witness :
    1000 ≤ (List.replicate 2000 (Row.mk 0 "x")).length ∧
    (selectRows (List.replicate 2000 (Row.mk 0 "x"))
        (SelectBench.benchQuery 1000)).length = 1000 := by
  refine ⟨by rw [List.length_replicate]; norm_num, ?_⟩
  exact (select_iteration_shape .pessimistic 1000
    (List.replicate 2000 (Row.mk 0 "x"))).2.2.2
    (by rw [List.length_replicate]; norm_num)

/-- C6 counterexample: the claim says a worker with non-zero index issues
no drop during teardown, but `teardown` ignores the worker identity — the
worker with index 1 issues exactly one DROP TABLE IF EXISTS in both
workloads. -/
theorem teardown_nonzero_worker_drops :
    (InsertBench.teardownOps 1).countP isDropOp = 1 ∧
    (SelectBench.teardownOps 1).countP isDropOp = 1 := by
  decide

/-- C6 amended: every worker (not only index 0) issues exactly one
idempotent DROP TABLE IF EXISTS during its own teardown, identically for
every worker index; ordering relative to the other workers' iteration
loops is left to the calling framework. -/
theorem teardown_every_worker_drops (w w' : Nat) :
    (InsertBench.teardownOps w).countP isDropOp = 1 ∧
    (SelectBench.teardownOps w).countP isDropOp = 1 ∧
    InsertBench.teardownOps w = InsertBench.teardownOps w' ∧
    SelectBench.teardownOps w = SelectBench.teardownOps w' := by
  exact ⟨rfl, rfl, rfl, rfl⟩

set_option maxRecDepth 20000 in
/-- C7: evaluating the statement construction at the default configuration
(table name "bench_table"): every statement either binary builds contains
no backtick — the table name is interpolated raw — while the never-called
library helper `quoted_table` produces a backtick-quoted identifier. -/
theorem table_name_not_quoted :
    dropTableStmt "bench_table" = "DROP TABLE IF EXISTS bench_table" ∧
    hasBacktick (DbOpts.quoted_table "bench_table") = true ∧
    (insertAllStmts "bench_table" 0 2).all (fun s => !hasBacktick s) = true ∧
    (selectAllStmts "bench_table").all (fun s => !hasBacktick s) = true := by
  decide

/-- Among the generated values `1..N`, exactly `min m N` survive the
`n <= m` filter. -/
theorem range_map_filter_length (m N : Nat) :
    (((List.range N).map (fun i => i + 1)).filter
        (fun n => decide (n ≤ m))).length = min m N := by
  induction N with
  | zero => simp
  | succ N ih =>
      rw [List.range_succ, List.map_append, List.filter_append,
        List.length_append, ih]
      have hsing : ((List.map (fun i => i + 1) [N]).filter
          (fun n => decide (n ≤ m))).length = if N + 1 ≤ m then 1 else 0 := by
        by_cases h : N + 1 ≤ m
        · rw [if_pos h]
          simp [List.filter_cons, h]
        · rw [if_neg h]
          simp [List.filter_cons, h]
      rw [hsing, Nat.min_def, Nat.min_def]
      split <;> split <;> split <;> omega

/-- The number of rows the SELECT-workload seeding statement inserts, when
the `u32` multiplication `select_count * 2` does not wrap. -/
theorem seededRows_eq (sc : Nat) (h : 2 * sc < 2 ^ 32) :
    seededRows sc = min (2 * sc) 10000 := by
  have hic : SelectBench.insert_count sc = 2 * sc := by
    unfold SelectBench.insert_count TEST_DATA_MULTIPLIER
    rw [Nat.mul_comm]
    exact Nat.mod_eq_of_lt h
  unfold seededRows seedTable generatorRows
  rw [List.length_map, hic, range_map_filter_length]

/-- C10: the seeding statement inserts `min(2 * select_count, 10000)` rows
(its generator yields at most 10^4 candidates), so for
`select_count > 5000` strictly fewer than `2 * select_count` rows are
seeded; concretely at `select_count = 20000` the iteration's
`SELECT ... LIMIT 20000` fetches only 10000 rows while the report still
claims `items = 20000`. -/
theorem seed_volume_capped (sc : Nat) (h : 2 * sc < 2 ^ 32) :
    seededRows sc = min (2 * sc) 10000 ∧
    (5000 < sc → seededRows sc = 10000 ∧ seededRows sc < 2 * sc) ∧
    (selectRows (seedTable 20000) (SelectBench.benchQuery 20000)).length
      = 10000 ∧
    (∀ r, SelectBench.benchRun .autoCommit 20000 (seedTable 20000)
        (fun _ => false) = Except.ok r →
      (selectRows (seedTable 20000)
          (SelectBench.benchQuery 20000)).length < r.items ∧
      r.items = 20000) := by
  have h20 : (seedTable 20000).length = 10000 := by
    have := seededRows_eq 20000 (by norm_num)
    unfold seededRows at this
    omega
  have hlen : (selectRows (seedTable 20000)
      (SelectBench.benchQuery 20000)).length = 10000 := by
    simp only [selectRows, SelectBench.benchQuery, List.length_take, h20]
    decide
  refine ⟨seededRows_eq sc h, ?_, hlen, ?_⟩
  · intro h5
    have he := seededRows_eq sc h
    have hmin : min (2 * sc) 10000 = 10000 := Nat.min_eq_right (by omega)
    rw [he, hmin]
    exact ⟨rfl, by omega⟩
  · intro r hr
    obtain ⟨-, hitems, -⟩ := benchRun_ok_shape .autoCommit 20000
      (seedTable 20000) (fun _ => false) r hr
    rw [hlen, hitems]
    norm_num

/-- C10 witness: at `select_count = 20000` the seeding is capped at 10000
rows, strictly fewer than 2 * 20000, and the iteration's query returns
10000 rows. -/
theorem seed_volume_capped_witness :
    2 * 20000 < 2 ^ 32 ∧
    seededRows 20000 = 10000 ∧
    seededRows 20000 < 2 * 20000 ∧
    (selectRows (seedTable 20000) (SelectBench.benchQuery 20000)).length
      = 10000 := by
  obtain ⟨-, h2, h3, -⟩ := seed_volume_capped 20000 (by norm_num)
  obtain ⟨h4, h5⟩ := h2 (by norm_num)
  exact ⟨by norm_num, h4, h5, h3⟩

end TidbBench
